import Mathlib

/-!
Verification of the Pulp-manager core against its specification.

The definitions below are a shallow embedding of the relevant parts of the
source tree:

* `pulp_manager/app/models/task.py` — the `TaskType` and `TaskState` enums and
  the `Task.state` / `Task.task_type` property setters and getters;
* `pulp_manager/app/services/task_service.py` — `TaskService.update_task`;
* `pulp_manager/app/services/repo_syncher.py` — the post-sync-stage decision in
  `_progress_sync`, `_calculate_repo_health`,
  `_calculate_pulp_server_repo_health_rollup` and the poll loop of
  `_do_sync_repos`;
* `pulp_manager/app/services/pulp_helpers.py` — `get_pulp_server_repos`;
* `pulp_manager/app/services/repo_remover.py` — `_get_repos_for_removal` and
  the exception skeleton of `remove_repos`;
* `pulp_manager/app/services/snapshotter.py` — `_snapshot_allowed` and the
  control flow of `snapshot_repos`;
* `pulp_manager/app/tasks/remove_content_task.py` — the publish decision of
  `remove_repo_content`.

Machine integers do not overflow in any of the embedded code paths, so
enumeration values are plain naturals.  Python dictionaries holding task rows
become explicit record types; raising an exception becomes an explicit
outcome constructor.
-/

namespace PulpManager

/-! ## Task state enum (models/task.py, class TaskState)

`TaskState` assigns the small-int values 1..7 to the seven state names.  The
Python `Enum` machinery gives three operations that the model needs:
`member.value`, lookup by value (`TaskState(v)` / `_value2member_map_`), and
lookup by name (`TaskState[name]`). -/

inductive TState where
  | queued
  | running
  | completed
  | failed
  | canceled
  | failed_to_start
  | skipped
  deriving DecidableEq, Repr

/-- The small-int value of each `TaskState` member (models/task.py lines 50-56). -/
def TState.value : TState → Nat
  | .queued => 1
  | .running => 2
  | .completed => 3
  | .failed => 4
  | .canceled => 5
  | .failed_to_start => 6
  | .skipped => 7

/-- Lookup of a `TaskState` member by value, i.e. Python's
`TaskState._value2member_map_`—`none` models a missing key. -/
def TState.ofValue : Nat → Option TState
  | 1 => some .queued
  | 2 => some .running
  | 3 => some .completed
  | 4 => some .failed
  | 5 => some .canceled
  | 6 => some .failed_to_start
  | 7 => some .skipped
  | _ => none

/-- Lookup of a `TaskState` member by name, i.e. Python's `TaskState[name]`
(raising `KeyError`, modelled by `none`, on an unknown name). -/
def TState.ofName : String → Option TState
  | "queued" => some .queued
  | "running" => some .running
  | "completed" => some .completed
  | "failed" => some .failed
  | "canceled" => some .canceled
  | "failed_to_start" => some .failed_to_start
  | "skipped" => some .skipped
  | _ => none

/-- The name of a `TaskState` member (`member.name`). -/
def TState.name : TState → String
  | .queued => "queued"
  | .running => "running"
  | .completed => "completed"
  | .failed => "failed"
  | .canceled => "canceled"
  | .failed_to_start => "failed_to_start"
  | .skipped => "skipped"

/-- Python's `str.lower()` over the ASCII names the setters receive. -/
def pyLower (s : String) : String := ⟨s.data.map Char.toLower⟩

/-! ## Task type enum (models/task.py, class TaskType)

The source assigns `repo_sync = 1`, `repo_group_sync = 2`, `repo_snapshot = 3`,
`repo_creation_from_git = 4`, `repo_removal = 5` and `remove_repo_content = 5`.
Because `remove_repo_content` repeats the value 5, Python's `Enum` machinery
makes it an *alias* of `repo_removal`: `TaskType["remove_repo_content"]` is
accepted (the member map contains aliases) and yields value 5, but value
lookup `TaskType(5)` returns the canonical member, whose `.name` is
`"repo_removal"`. -/

/-- `TaskType[name].value`: lookup by member name, aliases included
(models/task.py lines 28-33). -/
def taskTypeValueOfName : String → Option Nat
  | "repo_sync" => some 1
  | "repo_group_sync" => some 2
  | "repo_snapshot" => some 3
  | "repo_creation_from_git" => some 4
  | "repo_removal" => some 5
  | "remove_repo_content" => some 5
  | _ => none

/-- `TaskType(v).name`: the canonical member for a stored value.  Value 5 was
first bound to `repo_removal`, so `remove_repo_content` is only an alias and is
never returned by value lookup. -/
def taskTypeNameOfValue : Nat → Option String
  | 1 => some "repo_sync"
  | 2 => some "repo_group_sync"
  | 3 => some "repo_snapshot"
  | 4 => some "repo_creation_from_git"
  | 5 => some "repo_removal"
  | _ => none

/-- `Task.task_type` setter, string branch (models/task.py lines 189-193):
`self.task_type_id = TaskType[value.lower()].value`, `ValueError` on an
unknown name (modelled by `none`). -/
def taskTypeSetterStr (value : String) : Option Nat :=
  taskTypeValueOfName (pyLower value)

/-- Setting `Task.task_type` to a name and reading it back through the
`task_type` getter (`TaskType(self.task_type_id).name`,
models/task.py lines 168-174). -/
def taskTypeRoundTrip (value : String) : Option String :=
  (taskTypeSetterStr value).bind taskTypeNameOfValue

/-! ## Task rows and the `Task.state` setter -/

/-- The value passed to the `Task.state` setter: Python accepts either an
`int` or a `str` (models/task.py lines 206-226). -/
inductive StateValue where
  | byId (n : Nat)
  | byName (s : String)
  deriving DecidableEq, Repr

/-- `Task.state` setter (models/task.py lines 206-226).  An `int` is accepted
iff it is in `TaskState._value2member_map_`; a `str` is lower-cased and looked
up by name; there is no check of the previous state, so every known state is
accepted regardless of the stored one.  `none` models the raised
`ValueError`. -/
def taskStateSetter (value : StateValue) : Option TState :=
  match value with
  | .byId n => TState.ofValue n
  | .byName s => TState.ofName (pyLower s)

/-- A persisted task row, restricted to the columns the claims are about. -/
structure TaskRow where
  state : TState
  dateFinished : Bool
  deriving DecidableEq, Repr

/-- `TaskService.update_task` (services/task_service.py lines 76-103): the
update dict always carries `"state": task_updates["new_state"].value`, the
repository `update` assigns it through the `Task.state` setter, and the
service commits.  No transition validation is performed anywhere on this
path, so the requested member state always overwrites the stored one.
(`TableRepository.update` itself is not under the source tree; following the
spec's entity-store contract it assigns the attributes and the caller
commits.) -/
def updateTaskState (stored : TState) (newState : TState) : TState :=
  match taskStateSetter (.byId newState.value) with
  | some st => st
  | none => stored

/-- The transition DAG of spec invariant I1: queued → {running, canceled,
failed_to_start, skipped}; running → {completed, failed, canceled}; the
terminal states {completed, failed, canceled, failed_to_start, skipped} have
no outgoing edges. -/
def legalTransition : TState → TState → Bool
  | .queued, .running => true
  | .queued, .canceled => true
  | .queued, .failed_to_start => true
  | .queued, .skipped => true
  | .running, .completed => true
  | .running, .failed => true
  | .running, .canceled => true
  | _, _ => false

/-! ## String helpers

Python string operations used by the embedded code, written over the
character list so that the kernel can evaluate them on concrete inputs. -/

/-- Python's `pat in s` substring test. -/
def listContainsChars : List Char → List Char → Bool
  | l, pat =>
    if pat.isPrefixOf l then true
    else match l with
      | [] => pat.isEmpty
      | _ :: rest => listContainsChars rest pat

/-- Python's `pat in s` on strings. -/
def strContains (s pat : String) : Bool := listContainsChars s.data pat.data

/-- Python's `s.startswith(p)`; also the meaning of `re.match(f"^{p}", s)` for
the regex-free prefixes exercised here. -/
def strStartsWith (s p : String) : Bool := p.data.isPrefixOf s.data

/-- Python's `s.endswith(p)`. -/
def strEndsWith (s p : String) : Bool := p.data.isSuffixOf s.data

/-- C1: the claim as stated.  It asserts that an update requesting an illegal
transition is rejected with the stored state unchanged; this predicate says
exactly that for a single update through the task service. -/
def claimC1Holds : Prop :=
  ∀ stored newState : TState,
    legalTransition stored newState = false →
    updateTaskState stored newState = stored

/-! ## Repo health (models/repo.py RepoHealthStatus, repo_syncher.py) -/

/-- `RepoHealthStatus` (models/repo.py lines 11-23). -/
inductive Health where
  | green
  | amber
  | red
  deriving DecidableEq, Repr

/-- Number of tasks among `lastSyncs` whose state is not `completed` — the
`num_fail` counter of `_calculate_repo_health` (repo_syncher.py lines 733-740). -/
def numFail (lastSyncs : List TState) : Nat :=
  (lastSyncs.filter (fun s => s != TState.completed)).length

/-- Number of tasks among `lastSyncs` whose state is `completed` — the
`num_success` counter of the same loop. -/
def numSuccess (lastSyncs : List TState) : Nat :=
  (lastSyncs.filter (fun s => s == TState.completed)).length

/-- `_calculate_repo_health` per-repo classification (repo_syncher.py lines
720-747).  `lastSyncs` holds the states of the (at most five) tasks linked to
the repo, most recent first; `last_syncs[0]` on an empty list raises
`IndexError`, modelled by `none`. -/
def calculateRepoHealth : List TState → Option Health
  | [] => none
  | first :: rest =>
    if first = TState.completed then some .green
    else if numFail (first :: rest) ≤ 3 ∧ 0 < numSuccess (first :: rest) then some .amber
    else some .red

/-- The classification stated by spec invariant I4 and claim C4: green if the
most recent linked task is completed; amber if, among the listed tasks, the
number of failed (non-completed) ones is between 1 and 3 and at least one
succeeded; red otherwise. -/
def classifyHealthI4 : List TState → Option Health
  | [] => none
  | first :: rest =>
    if first = TState.completed then some .green
    else if 1 ≤ numFail (first :: rest) ∧ numFail (first :: rest) ≤ 3 ∧
        1 ≤ numSuccess (first :: rest) then some .amber
    else some .red

/-- The red counter of `_calculate_pulp_server_repo_health_rollup`
(repo_syncher.py lines 785-791): the loop increments `green` when a repo's
health reads "green", `amber` when it reads "amber", and `red` for *every
other* value — a repo whose health is unset (`None`) falls into the final
`else` branch. -/
def rollupRedCount (repos : List (Option Health)) : Nat :=
  repos.countP (fun h => h != some Health.green && h != some Health.amber)

/-- The amber counter of the same loop. -/
def rollupAmberCount (repos : List (Option Health)) : Nat :=
  repos.countP (fun h => h == some Health.amber)

/-- `_calculate_pulp_server_repo_health_rollup` final decision
(repo_syncher.py lines 793-804): red if the red counter is positive, else
amber if the amber counter is positive, else green. -/
def calculateRollup (repos : List (Option Health)) : Health :=
  if 0 < rollupRedCount repos then .red
  else if 0 < rollupAmberCount repos then .amber
  else .green

/-- The rollup exactly as claim C5 states it (spec invariant I3 read
literally over the per-repo health values): red if any repo's health is red;
else amber if any is amber; else green.  A repo with unset health is neither
red nor amber under this reading. -/
def rollupClaimC5 (repos : List (Option Health)) : Health :=
  if repos.any (fun h => h == some Health.red) then .red
  else if repos.any (fun h => h == some Health.amber) then .amber
  else .green

/-- The rollup amended to what the loop computes: any repo whose health is
neither green nor amber — red or unset alike — makes the rollup red; else any
amber repo makes it amber; else it is green. -/
def rollupAmended (repos : List (Option Health)) : Health :=
  if repos.any (fun h => h != some Health.green && h != some Health.amber) then .red
  else if repos.any (fun h => h == some Health.amber) then .amber
  else .green

/-! ## The post-sync-stage decision of `_progress_sync` (repo_syncher.py) -/

/-- What `_progress_sync` does once the sync-stage backend task has finished
in state `completed` (repo_syncher.py lines 494-519). -/
inductive SyncStageStep where
  /-- enter `_start_remove_banned_packages` and, if that skips,
  `_start_publication` (lines 506-508) -/
  | advanceStages
  /-- update the stage detail and mark the child task completed with
  `date_finished` stamped (lines 509-519) -/
  | skipCompleted (finalState : TState) (dateFinished : Bool)
  deriving DecidableEq, Repr

/-- The branch taken at repo_syncher.py lines 504-519: advance iff no
publication exists for the repo's `latest_version_href` AND the repo href is
not a container href; otherwise skip the remaining stages and mark the child
task completed.  The backend task's `created_resources` feed only the stage
message (lines 496-501), not this branch. -/
def progressSyncAfterSync (publicationExists : Bool) (repoHref : String)
    (createdResources : List String) : SyncStageStep :=
  if !publicationExists && !(strContains repoHref "/container/") then
    .advanceStages
  else
    .skipCompleted .completed true

/-- Claim C3 as stated: the skip happens exactly when the backend task created
no resources and a publication already exists; every other successful sync
advances. -/
def claimC3Holds : Prop :=
  ∀ (publicationExists : Bool) (repoHref : String) (createdResources : List String),
    progressSyncAfterSync publicationExists repoHref createdResources =
      .skipCompleted .completed true ↔
    createdResources = [] ∧ publicationExists = true

/-! ## Repo selection (services/pulp_helpers.py, get_pulp_server_repos)

Regex matching is abstracted by a `search : String → String → Bool` parameter
standing for `re.search(pattern, string)`; the selection logic itself is from
the source. -/

/-- The fields of a `PulpServerRepo` the selection reads: the linked repo's
`name` and the optional `remote_feed`. -/
structure PRepo where
  name : String
  remoteFeed : Option String
  deriving DecidableEq, Repr

/-- Python truthiness of an optional string argument: `None` and `""` are
falsy. -/
def optTruthy : Option String → Bool
  | none => false
  | some s => !s.isEmpty

/-- `re.search(pattern, name)` lifted to the optional pattern argument;
`none` never matches (the `and` in the source short-circuits). -/
def optSearch (search : String → String → Bool) (o : Option String)
    (name : String) : Bool :=
  match o with
  | none => false
  | some pat => search pat name

/-- The per-repo test of `get_pulp_server_repos` (pulp_helpers.py lines
42-57): skip when `exclude_no_remote` is set and the repo has no
`remote_feed`; skip when `regex_exclude` is truthy and matches the name
(exclude wins); skip when `regex_include` is truthy and does not match; keep
otherwise (the source's last two `elif`/`else` branches both append). -/
def keepRepo (search : String → String → Bool)
    (regexInclude regexExclude : Option String) (excludeNoRemote : Bool)
    (repo : PRepo) : Bool :=
  if excludeNoRemote && repo.remoteFeed.isNone then false
  else if optTruthy regexExclude && optSearch search regexExclude repo.name then false
  else if optTruthy regexInclude && !(optSearch search regexInclude repo.name) then false
  else true

/-- `get_pulp_server_repos` (pulp_helpers.py lines 27-57). -/
def getPulpServerRepos (search : String → String → Bool) (repos : List PRepo)
    (regexInclude regexExclude : Option String)
    (excludeNoRemote : Bool := true) : List PRepo :=
  repos.filter (keepRepo search regexInclude regexExclude excludeNoRemote)

/-- The sync path: `_get_repos_to_sync` (repo_syncher.py lines 75-92) calls
the helper with the default `exclude_no_remote=True`. -/
def getReposToSync (search : String → String → Bool) (repos : List PRepo)
    (regexInclude regexExclude : Option String) : List PRepo :=
  getPulpServerRepos search repos regexInclude regexExclude

/-- The removal path: `_get_repos_for_removal` (repo_remover.py lines
102-110) calls the helper with `exclude_no_remote=False` and raises
`PulpManagerValueError` when the selection is empty. -/
def getReposForRemoval (search : String → String → Bool) (repos : List PRepo)
    (regexInclude regexExclude : Option String) : Except String (List PRepo) :=
  let matching := getPulpServerRepos search repos regexInclude regexExclude false
  if matching.isEmpty then
    .error "No repositories found matching the regex pattern"
  else
    .ok matching

/-! ## Content-removal publish decision (tasks/remove_content_task.py) -/

/-- Outcome of the publish step of `remove_repo_content` once the modify
backend task has completed. -/
inductive PublishDecision where
  /-- the stage "repo publication skipped as no new resources created from
  modify" is added and no publication is made (lines 121-126) -/
  | skipPublication
  /-- a publication of `versionHref` is created, flat when `isFlatRepo`
  (lines 127-150) -/
  | publishVersion (versionHref : String) (isFlatRepo : Bool)
  deriving DecidableEq, Repr

/-- The decision of remove_content_task.py lines 121-140: skip when the
modify task created no resources and `force_publish` is false; otherwise
publish the modify task's first created resource when one exists, else the
repo's `latest_version_href`; DEB flatness comes from the remote's
`is_flat_repo` and only applies to DEB repositories. -/
def removeContentPublishStep (createdResources : List String)
    (forcePublish : Bool) (latestVersionHref : String)
    (isDebRepo : Bool) (remoteIsFlat : Bool) : PublishDecision :=
  if createdResources.length = 0 && !forcePublish then
    .skipPublication
  else
    let isFlatRepo := if isDebRepo then remoteIsFlat else false
    let versionToPublish :=
      match createdResources with
      | [] => latestVersionHref
      | v :: _ => v
    .publishVersion versionToPublish isFlatRepo

/-! ## The sync scheduler poll loop (repo_syncher.py, _do_sync_repos)

The loop keeps two collections: `repo_tasks_pending` (list) and
`tasks_in_progress` (dict keyed by task id, modelled as the list of its
values).  Each outer iteration first tops up the in-flight set, then polls
every in-flight task and deletes the finished ones.  Which tasks finish on a
given tick depends on the backend and is abstracted by one `α → Bool` oracle
per iteration. -/

/-- The fill loop at the top of each scheduler iteration (repo_syncher.py
lines 609-612): while tasks are pending and the in-flight size differs from
`max_concurrent_syncs`, move one pending task into the in-flight set.
Python's `list.pop()` takes from the tail; the model keeps `pending` in pop
order, which does not affect the sizes this claim is about. -/
def fillInFlight (k : Nat) : List α → List α → List α × List α
  | [], inFlight => ([], inFlight)
  | t :: rest, inFlight =>
    if inFlight.length ≠ k then fillInFlight k rest (t :: inFlight)
    else (t :: rest, inFlight)

/-- The polling pass of one iteration (repo_syncher.py lines 614-644): every
in-flight task is polled; a task whose `_start_sync` raised or whose
`_progress_sync` returned completion is deleted from the in-flight set.  The
per-iteration oracle `done` abstracts those removal decisions. -/
def pollInFlight (done : α → Bool) (inFlight : List α) : List α :=
  inFlight.filter (fun t => !(done t))

/-- The sizes of the in-flight set right after each iteration's fill phase —
its per-iteration maximum (the polling pass only removes).  One oracle per
executed iteration of the `while` loop at repo_syncher.py line 605. -/
def pollTraceInFlight (k : Nat) :
    List (α → Bool) → List α × List α → List (List α)
  | [], _ => []
  | done :: more, (pending, inFlight) =>
    let filled := fillInFlight k pending inFlight
    filled.2 :: pollTraceInFlight k more (filled.1, pollInFlight done filled.2)

/-! ## Controller exception skeletons (C6, C7)

`snapshot_repos` (snapshotter.py), `sync_repos` (repo_syncher.py) and
`remove_repos` (repo_remover.py) share the pattern: acquire or create the
parent task in state running, run the workflow, and on an exception record
the failure on the parent task before re-raising.  The rows below track both
the last *committed* task row and the in-session row, because one of the
handlers updates without committing.  `TableRepository.add`/`update` are not
under the source tree; following the spec's entity-store contract, `add` and
`update` mutate the session and only `Session.commit` persists. -/

/-- Result of running one controller entry point: the last committed parent
task row, the parent task row as left in the session, and whether an
exception escaped the call. -/
structure RunOutcome where
  committed : TaskRow
  session : TaskRow
  raised : Bool
  deriving DecidableEq, Repr

/-- `sync_repos` (repo_syncher.py lines 899-1015) once the parent task exists
(created by `create_task_entry` or fetched by `_get_task_entry`, committed in
state running): on success the task is committed completed with
`date_finished`; the broad `except` handler (lines 999-1015) updates the task
to failed with `date_finished`, commits, and re-raises. -/
def syncReposOutcome (bodyRaises : Bool) : RunOutcome :=
  if bodyRaises then
    { committed := ⟨.failed, true⟩, session := ⟨.failed, true⟩, raised := true }
  else
    { committed := ⟨.completed, true⟩, session := ⟨.completed, true⟩, raised := false }

/-- `remove_repos` (repo_remover.py lines 242-320) once the parent task
exists (committed in state running, lines 260-291): on success the task is
committed completed with `date_finished` (lines 296-304); the `except`
handler (lines 305-320) updates the session row to failed with
`date_finished` but re-raises *without* a commit, so the committed row still
reads running. -/
def removeReposOutcome (bodyRaises : Bool) : RunOutcome :=
  if bodyRaises then
    { committed := ⟨.running, false⟩, session := ⟨.failed, true⟩, raised := true }
  else
    { committed := ⟨.completed, true⟩, session := ⟨.completed, true⟩, raised := false }

/-! ## The snapshot controller (snapshotter.py) -/

/-- Prefix normalization at snapshotter.py lines 454-456: the snapshot prefix
is made to end with "-". -/
def normalizeSnapPrefixDash (p : String) : String :=
  if strEndsWith p "-" then p else p ++ "-"

/-- `_snapshot_allowed` (snapshotter.py lines 415-424): raises
`PulpManagerSnapshotError` when any existing repo name begins with the
prefix (`re.match(f"^{p}", name)` is a string-prefix test for the
regex-metacharacter-free prefixes in scope); `some message` models the
raise. -/
def snapshotAllowedError (pfx : String) (existingRepoNames : List String) :
    Option String :=
  if existingRepoNames.any (fun n => strStartsWith n pfx) then
    some ("snapshots with prefix " ++ pfx ++ " already exist")
  else
    none

/-- One observable step of a snapshot run, used to order backend calls
against the failure point. -/
inductive SnapStep where
  /-- an HTTP call to the backend, tagged with what it does -/
  | backendCall (what : String)
  /-- the run raises out of `snapshot_repos` with this exception message -/
  | failRun (excMessage : String)
  deriving DecidableEq, Repr

/-- Modelled from the spec: `PulpReconciler.reconcile`
(services/reconciler.py is not under the source tree).  Spec §4.5 step 1:
"Fetch all remotes, repositories, and distributions from the backend (C2
paged)", so a reconcile performs backend HTTP calls; the model records the
three fetches. -/
def reconcileBackendCalls : List SnapStep :=
  [.backendCall "GET remotes", .backendCall "GET repositories",
   .backendCall "GET distributions"]

/-- The parent task row left by a snapshot run, with the serialized error
fields: the handler stores `msg` "failed to snapshot repos" and `detail` the
traceback, whose final line carries the exception message — the model keeps
the exception message as the detail. -/
structure SnapTaskRow where
  state : TState
  dateFinished : Bool
  errorMsg : Option String
  errorDetail : Option String
  deriving DecidableEq, Repr

/-- Result of `snapshot_repos`: the ordered trace of backend calls and the
failure point, the committed parent task row, and whether an exception
escaped. -/
structure SnapOutcome where
  trace : List SnapStep
  task : SnapTaskRow
  raised : Bool
  deriving DecidableEq, Repr

/-- `snapshot_repos` (snapshotter.py lines 426-513).  The parent task is
created or updated to state running and committed (lines 458-487).  The
`snapshot_supported` guard (lines 489-492) raises *outside* the
`try`/`except` that records failures, so that exception escapes with the
task still committed as running.  Inside the `try` (lines 494-513):
`_do_reconcile` runs first — performing the reconcile backend fetches — then,
when `allow_snapshot_reuse` is false, `_snapshot_allowed` may raise; the
`except` handler commits the task as failed with `date_finished`, `msg`
"failed to snapshot repos" and the traceback as detail, and re-raises.
`restOfRun` abstracts the backend calls of a run that passes the guards. -/
def snapshotReposRun (snapshotSupported : Bool) (allowSnapshotReuse : Bool)
    (existingRepoNames : List String) (rawSnapPrefixArg : String)
    (restOfRun : List SnapStep) : SnapOutcome :=
  let pfx := normalizeSnapPrefixDash rawSnapPrefixArg
  if !snapshotSupported then
    { trace := [.failRun "pulp server not supported for repo snapshots"],
      task := ⟨.running, false, none, none⟩,
      raised := true }
  else
    match (if allowSnapshotReuse then none
           else snapshotAllowedError pfx existingRepoNames) with
    | some excMessage =>
      { trace := reconcileBackendCalls ++ [.failRun excMessage],
        task := ⟨.failed, true, some "failed to snapshot repos", some excMessage⟩,
        raised := true }
    | none =>
      { trace := reconcileBackendCalls ++ restOfRun,
        task := ⟨.completed, true, none, none⟩,
        raised := false }

/-- Claim C6 as stated: with `allow_snapshot_reuse=false` and an existing
repo name beginning with the normalized prefix, `snapshot_repos` fails
*before any backend call is made*, leaving the parent task failed with error
"snapshots with prefix `<prefix>` already exist". -/
def claimC6Holds : Prop :=
  ∀ (existingRepoNames : List String) (rawSnapPrefixArg : String)
    (restOfRun : List SnapStep),
    (existingRepoNames.any
      (fun n => strStartsWith n (normalizeSnapPrefixDash rawSnapPrefixArg))) = true →
    let out := snapshotReposRun true false existingRepoNames rawSnapPrefixArg restOfRun
    out.raised = true ∧
    (∀ what, SnapStep.backendCall what ∉ out.trace) ∧
    out.task.state = .failed ∧
    out.task.errorMsg =
      some ("snapshots with prefix " ++ normalizeSnapPrefixDash rawSnapPrefixArg ++
        " already exist")

/-- Claim C7 as stated, over the three controller entry points: whenever an
exception escapes after the parent task row exists, the committed parent task
row reads failed with `date_finished` set. -/
def claimC7Holds : Prop :=
  (∀ b, (syncReposOutcome b).raised = true →
    (syncReposOutcome b).committed = ⟨.failed, true⟩) ∧
  (∀ b, (removeReposOutcome b).raised = true →
    (removeReposOutcome b).committed = ⟨.failed, true⟩) ∧
  (∀ supported reuse existing pfxArg rest,
    (snapshotReposRun supported reuse existing pfxArg rest).raised = true →
    (snapshotReposRun supported reuse existing pfxArg rest).task.state = .failed ∧
    (snapshotReposRun supported reuse existing pfxArg rest).task.dateFinished = true)

end PulpManager

namespace PulpManager

/-! ## Claim theorems -/

/-- C1 counterexample: a task stored as `completed` updated to `running` —
an illegal transition under I1 — is persisted as `running`, not rejected. -/
theorem updateTask_completed_to_running_persisted :
    legalTransition .completed .running = false ∧
    updateTaskState .completed .running = .running ∧
    ¬ claimC1Holds := by
  refine ⟨rfl, rfl, ?_⟩
  intro h
  have := h .completed .running rfl
  simp [updateTaskState, taskStateSetter, TState.value, TState.ofValue] at this

/-- C1 amended: `TaskService.update_task` persists every requested member
state regardless of the stored state — the `Task.state` setter rejects only
unknown state ids or names, never a transition — so in particular the illegal
transition `completed → running` overwrites the store. -/
theorem updateTask_persists_any_member_state :
    (∀ stored newState : TState, updateTaskState stored newState = newState) ∧
    taskStateSetter (.byId 99) = none ∧
    taskStateSetter (.byName "finished") = none := by
  refine ⟨?_, rfl, by decide⟩
  intro stored newState
  cases newState <;> rfl

/-- C2 counterexample: the round trip through the `task_type` setter and
getter does not return `remove_repo_content`: its enum value 5 collides with
`repo_removal`, so value lookup yields the canonical member `repo_removal`
and the six-name conversion is not bijective. -/
theorem taskTypeRoundTrip_remove_repo_content_aliases :
    taskTypeRoundTrip "remove_repo_content" = some "repo_removal" ∧
    taskTypeRoundTrip "remove_repo_content" ≠ some "remove_repo_content" := by
  decide

/-- C2 amended: the set-then-get round trip returns the same name for the
five canonically valued task types, while `remove_repo_content` is stored as
value 5 and read back as `repo_removal`. -/
theorem taskTypeRoundTrip_five_names_id :
    taskTypeRoundTrip "repo_sync" = some "repo_sync" ∧
    taskTypeRoundTrip "repo_group_sync" = some "repo_group_sync" ∧
    taskTypeRoundTrip "repo_snapshot" = some "repo_snapshot" ∧
    taskTypeRoundTrip "repo_creation_from_git" = some "repo_creation_from_git" ∧
    taskTypeRoundTrip "repo_removal" = some "repo_removal" ∧
    taskTypeRoundTrip "remove_repo_content" = some "repo_removal" := by
  decide

/-- C3 counterexample: a successful sync whose backend task created a
resource while a publication already exists for the latest version — the
claim requires the run to advance to the remove-banned-packages / publish
stages, but `_progress_sync` skips them and marks the child task completed,
because its branch only consults the publication check and the container
test, never `created_resources`. -/
theorem progressSync_skips_despite_created_resources :
    progressSyncAfterSync true "/pulp/api/v3/repositories/rpm/rpm/0af/"
        ["/pulp/api/v3/repositories/rpm/rpm/0af/versions/2/"] =
      .skipCompleted .completed true ∧
    ¬ claimC3Holds := by
  refine ⟨by decide, ?_⟩
  intro h
  have hmp := (h true "/pulp/api/v3/repositories/rpm/rpm/0af/"
    ["/pulp/api/v3/repositories/rpm/rpm/0af/versions/2/"]).mp (by decide)
  exact absurd hmp.1 (by decide)

/-- C3 amended: after a successful backend sync task the remaining stages are
skipped and the child task marked completed exactly when a publication for
the repo's latest version already exists or the repo is a container repo;
in every other case the run advances to the remove-banned-packages / publish
stages.  The backend task's created resources play no part in the branch. -/
theorem progressSync_skip_iff_pub_or_container
    (publicationExists : Bool) (repoHref : String) (createdResources : List String) :
    (progressSyncAfterSync publicationExists repoHref createdResources =
        .skipCompleted .completed true ↔
      publicationExists = true ∨ strContains repoHref "/container/" = true) ∧
    (progressSyncAfterSync publicationExists repoHref createdResources =
        .advanceStages ↔
      publicationExists = false ∧ strContains repoHref "/container/" = false) := by
  unfold progressSyncAfterSync
  cases publicationExists <;> cases h : strContains repoHref "/container/" <;> simp [h]

/-- C5 counterexample: a backend with a single repo whose health is unset —
the rollup loop's final `else` counts it as red, so the stored rollup is red,
while the claim's literal reading of I3 (no repo is red, none is amber)
yields green. -/
theorem rollup_unset_health_counts_as_red :
    calculateRollup [none] = Health.red ∧ rollupClaimC5 [none] = Health.green := by
  decide

/-- C9: in `remove_repo_content`, once the modify backend task has completed,
publication is skipped exactly when the modify created no resources and
`force_publish` is false; otherwise the published version is the modify
task's first created resource when one exists and the repo's
`latest_version_href` when none does, flat only for a DEB repo whose remote
is flat. -/
theorem removeContent_publish_decision (createdResources : List String)
    (forcePublish : Bool) (latestVersionHref : String)
    (isDebRepo remoteIsFlat : Bool) :
    (removeContentPublishStep createdResources forcePublish latestVersionHref
        isDebRepo remoteIsFlat = .skipPublication ↔
      createdResources = [] ∧ forcePublish = false) ∧
    (createdResources = [] → forcePublish = true →
      removeContentPublishStep createdResources forcePublish latestVersionHref
        isDebRepo remoteIsFlat =
        .publishVersion latestVersionHref (isDebRepo && remoteIsFlat)) ∧
    (∀ v rest, createdResources = v :: rest →
      removeContentPublishStep createdResources forcePublish latestVersionHref
        isDebRepo remoteIsFlat =
        .publishVersion v (isDebRepo && remoteIsFlat)) := by
  unfold removeContentPublishStep
  cases createdResources <;> cases forcePublish <;> cases isDebRepo <;> simp

/-- C9 witness: a modify task that created version `v1` of an RPM repo with
`force_publish=false` publishes exactly `v1`, non-flat. -/
theorem removeContent_publish_decision_witness :
    removeContentPublishStep ["v1"] false "lv" false false =
      .publishVersion "v1" false :=
  (removeContent_publish_decision ["v1"] false "lv" false false).2.2 "v1" [] rfl

/-- C4: for every non-empty list of up to five linked-task states, most
recent first, the health `_calculate_repo_health` stores equals the I4
classification: green when the most recent task completed; amber when 1–3 of
the listed tasks failed and at least one succeeded; red otherwise. -/
theorem calculateRepoHealth_matches_I4 (lastSyncs : List TState)
    (hne : lastSyncs ≠ []) (hlen : lastSyncs.length ≤ 5) :
    calculateRepoHealth lastSyncs = classifyHealthI4 lastSyncs := by
  match lastSyncs, hne with
  | first :: rest, _ =>
    by_cases hc : first = TState.completed
    · simp [calculateRepoHealth, classifyHealthI4, hc]
    · have hp : (first != TState.completed) = true := by
        simpa [bne_iff_ne] using hc
      have hfail : 1 ≤ numFail (first :: rest) := by
        unfold numFail
        simp [List.filter_cons, hp]
      simp only [calculateRepoHealth, classifyHealthI4, if_neg hc]
      apply if_congr _ rfl rfl
      constructor
      · rintro ⟨h1, h2⟩
        exact ⟨hfail, h1, h2⟩
      · rintro ⟨_, h1, h2⟩
        exact ⟨h1, h2⟩

/-- C4 witness: a repo whose most recent linked task failed but whose
previous one completed evaluates to the same (amber) health on both sides. -/
theorem calculateRepoHealth_matches_I4_witness :
    ([TState.failed, TState.completed] ≠ ([] : List TState)) ∧
    ([TState.failed, TState.completed] : List TState).length ≤ 5 ∧
    calculateRepoHealth [TState.failed, TState.completed] =
      classifyHealthI4 [TState.failed, TState.completed] :=
  ⟨by decide, by decide,
    calculateRepoHealth_matches_I4 _ (by decide) (by decide)⟩

/-- C5 amended: `Backend.repo_sync_health_rollup` equals the rollup in which
every repo whose health is neither green nor amber — red or unset alike —
forces red; else any amber repo forces amber; else the rollup is green. -/
theorem calculateRollup_eq_amended (repos : List (Option Health)) :
    calculateRollup repos = rollupAmended repos := by
  unfold calculateRollup rollupAmended rollupRedCount rollupAmberCount
  by_cases hr : ∃ h ∈ repos, (h != some Health.green && h != some Health.amber) = true
  · rw [if_pos (List.countP_pos_iff.mpr hr), if_pos (List.any_eq_true.mpr hr)]
  · rw [if_neg (fun hpos => hr (List.countP_pos_iff.mp hpos)),
      if_neg (fun hany => hr (List.any_eq_true.mp hany))]
    by_cases ha : ∃ h ∈ repos, (h == some Health.amber) = true
    · rw [if_pos (List.countP_pos_iff.mpr ha), if_pos (List.any_eq_true.mpr ha)]
    · rw [if_neg (fun hpos => ha (List.countP_pos_iff.mp hpos)),
        if_neg (fun hany => ha (List.any_eq_true.mp hany))]

/-- Under the no-empty-pattern hypothesis, Python truthiness of an optional
regex argument coincides with the argument being supplied. -/
theorem optTruthy_eq_isSome (o : Option String) (h : ∀ s, o = some s → s ≠ "") :
    optTruthy o = o.isSome := by
  cases o with
  | none => rfl
  | some s =>
    have he : s.isEmpty = false := by
      rw [← Bool.not_eq_true, String.isEmpty_iff]
      exact h s rfl
    simp [optTruthy, he]

/-- The per-repo test of the selection helper, characterized. -/
theorem keepRepo_true_iff (search : String → String → Bool)
    (regexInclude regexExclude : Option String) (excludeNoRemote : Bool)
    (r : PRepo)
    (hinc : ∀ s, regexInclude = some s → s ≠ "")
    (hexc : ∀ s, regexExclude = some s → s ≠ "") :
    keepRepo search regexInclude regexExclude excludeNoRemote r = true ↔
      (excludeNoRemote = true → r.remoteFeed ≠ none) ∧
      optSearch search regexExclude r.name = false ∧
      (∀ s, regexInclude = some s → search s r.name = true) := by
  unfold keepRepo
  rw [optTruthy_eq_isSome _ hinc, optTruthy_eq_isSome _ hexc]
  cases excludeNoRemote <;> cases regexExclude <;> cases regexInclude <;>
    cases hF : r.remoteFeed <;>
    simp [optSearch, hF]

/-- C8: the selection helper returns exactly the repos whose name does not
match the exclude regex and, when the include regex is supplied, matches it
(a repo matching both is excluded); the sync path additionally requires a
non-null `remote_feed`, while the removal path imposes no `remote_feed`
requirement and only errors when nothing matched.  `search` abstracts
`re.search`; supplied patterns are assumed non-empty, matching every pattern
the callers pass (an empty pattern string would be falsy in the source). -/
theorem repoSelection_matches_claim (search : String → String → Bool)
    (repos : List PRepo) (regexInclude regexExclude : Option String)
    (hinc : ∀ s, regexInclude = some s → s ≠ "")
    (hexc : ∀ s, regexExclude = some s → s ≠ "") :
    (∀ r, r ∈ getReposToSync search repos regexInclude regexExclude ↔
      r ∈ repos ∧ r.remoteFeed ≠ none ∧
      optSearch search regexExclude r.name = false ∧
      (∀ s, regexInclude = some s → search s r.name = true)) ∧
    (∀ r, r ∈ getPulpServerRepos search repos regexInclude regexExclude false ↔
      r ∈ repos ∧
      optSearch search regexExclude r.name = false ∧
      (∀ s, regexInclude = some s → search s r.name = true)) ∧
    (getPulpServerRepos search repos regexInclude regexExclude false ≠ [] →
      getReposForRemoval search repos regexInclude regexExclude =
        .ok (getPulpServerRepos search repos regexInclude regexExclude false)) := by
  refine ⟨?_, ?_, ?_⟩
  · intro r
    rw [getReposToSync, getPulpServerRepos, List.mem_filter,
      keepRepo_true_iff search regexInclude regexExclude true r hinc hexc]
    constructor
    · rintro ⟨hmem, hfeed, hexc1, hinc1⟩
      exact ⟨hmem, hfeed rfl, hexc1, hinc1⟩
    · rintro ⟨hmem, hfeed, hexc1, hinc1⟩
      exact ⟨hmem, fun _ => hfeed, hexc1, hinc1⟩
  · intro r
    rw [getPulpServerRepos, List.mem_filter,
      keepRepo_true_iff search regexInclude regexExclude false r hinc hexc]
    constructor
    · rintro ⟨hmem, _, hexc1, hinc1⟩
      exact ⟨hmem, hexc1, hinc1⟩
    · rintro ⟨hmem, hexc1, hinc1⟩
      refine ⟨hmem, ?_, hexc1, hinc1⟩
      intro h
      exact absurd h (by decide)
  · intro hne
    unfold getReposForRemoval
    rw [if_neg (by simpa [List.isEmpty_iff] using hne)]

/-- C8 witness: with include pattern "ext-" interpreted by a prefix matcher,
the repo `ext-foo` with a feed is selected by the sync path out of a
two-repo backend whose other repo has no feed. -/
theorem repoSelection_matches_claim_witness :
    (⟨"ext-foo", some "https://upstream/foo"⟩ : PRepo) ∈
      getReposToSync (fun pat n => strStartsWith n pat)
        [⟨"ext-foo", some "https://upstream/foo"⟩, ⟨"int-bar", none⟩]
        (some "ext-") none :=
  ((repoSelection_matches_claim (fun pat n => strStartsWith n pat)
      [⟨"ext-foo", some "https://upstream/foo"⟩, ⟨"int-bar", none⟩]
      (some "ext-") none
      (fun s hs => by cases hs; decide)
      (fun s hs => by cases hs)).1 _).mpr
    ⟨by decide, by decide, rfl, fun s hs => by cases hs; decide⟩

/-- The fill loop never grows the in-flight set beyond
`max_concurrent_syncs`: it moves one task at a time and stops as soon as the
size reaches `k`. -/
theorem fillInFlight_length_le {α : Type} (k : Nat) (pending inFlight : List α)
    (h : inFlight.length ≤ k) :
    (fillInFlight k pending inFlight).2.length ≤ k := by
  induction pending generalizing inFlight with
  | nil => simpa [fillInFlight] using h
  | cons t rest ih =>
    unfold fillInFlight
    by_cases hk : inFlight.length = k
    · rw [if_neg (fun hne => hne hk)]
      exact h
    · rw [if_pos hk]
      refine ih (t :: inFlight) ?_
      have : inFlight.length < k := Nat.lt_of_le_of_ne h hk
      simpa using this

/-- C10: for any sync run with `max_concurrent_syncs = k > 0`, any initial
list of child tasks and any sequence of per-iteration completion oracles,
the in-flight set observed at every iteration of the scheduler poll loop —
taken right after the fill phase, its per-iteration maximum — never holds
more than `k` child tasks. -/
theorem syncScheduler_inFlight_bounded {α : Type} (k : Nat) (hk : 0 < k)
    (tasks : List α) (oracles : List (α → Bool)) :
    ∀ s ∈ pollTraceInFlight k oracles (tasks, ([] : List α)), s.length ≤ k := by
  suffices main : ∀ (os : List (α → Bool)) (pending inFlight : List α),
      inFlight.length ≤ k →
      ∀ s ∈ pollTraceInFlight k os (pending, inFlight), s.length ≤ k by
    exact main oracles tasks [] (by simp)
  intro os
  induction os with
  | nil =>
    intro pending inFlight _ s hs
    simp [pollTraceInFlight] at hs
  | cons done more ih =>
    intro pending inFlight hle s hs
    simp only [pollTraceInFlight, List.mem_cons] at hs
    rcases hs with h1 | h2
    · rw [h1]
      exact fillInFlight_length_le k pending inFlight hle
    · refine ih (fillInFlight k pending inFlight).1
        (pollInFlight done (fillInFlight k pending inFlight).2) ?_ s h2
      calc (pollInFlight done (fillInFlight k pending inFlight).2).length
          ≤ (fillInFlight k pending inFlight).2.length :=
            List.length_filter_le _ _
        _ ≤ k := fillInFlight_length_le k pending inFlight hle

/-- C10 witness: three child tasks, `max_concurrent_syncs = 2`, one poll
iteration in which only task 1 finishes — every observed in-flight set holds
at most two tasks. -/
theorem syncScheduler_inFlight_bounded_witness :
    0 < 2 ∧
    ∀ s ∈ pollTraceInFlight 2 [fun t => t == 1]
      (([1, 2, 3] : List Nat), ([] : List Nat)), s.length ≤ 2 :=
  ⟨by decide, syncScheduler_inFlight_bounded 2 (by decide) [1, 2, 3] [fun t => t == 1]⟩

/-- C6 counterexample: backend with existing repo "snap1-foo",
`snapshot_repos` called with prefix "snap1" and `allow_snapshot_reuse=false`.
The run does fail on the prefix guard, but the trace shows the reconcile
stage's backend fetches happen *before* the failure — `_do_reconcile` runs
first — and the committed error message is "failed to snapshot repos" (the
prefix message only appears in the traceback detail), refuting "fails before
any backend call is made ... with error ...". -/
theorem snapshotRepos_reconcile_precedes_prefix_failure :
    (snapshotReposRun true false ["snap1-foo"] "snap1" []).trace =
      reconcileBackendCalls ++
        [.failRun "snapshots with prefix snap1- already exist"] ∧
    SnapStep.backendCall "GET remotes" ∈
      (snapshotReposRun true false ["snap1-foo"] "snap1" []).trace ∧
    (snapshotReposRun true false ["snap1-foo"] "snap1" []).task.errorMsg =
      some "failed to snapshot repos" ∧
    ¬ claimC6Holds := by
  refine ⟨by decide, by decide, by decide, ?_⟩
  intro h
  obtain ⟨-, hnb, -, -⟩ := h ["snap1-foo"] "snap1" [] (by decide)
  exact hnb "GET remotes" (by decide)

/-- C6 amended: if `allow_snapshot_reuse` is false and an existing repo name
begins with the dash-normalized prefix, `snapshot_repos` fails after the
reconcile stage's backend fetches but before any snapshot copy or publish
call, and the parent task is committed failed with `date_finished` set,
error message "failed to snapshot repos" and the exception message
"snapshots with prefix `<prefix>` already exist" in the error detail. -/
theorem snapshotRepos_prefix_guard_fails_after_reconcile
    (existingRepoNames : List String) (rawSnapPrefixArg : String)
    (restOfRun : List SnapStep)
    (hmatch : (existingRepoNames.any (fun n =>
      strStartsWith n (normalizeSnapPrefixDash rawSnapPrefixArg))) = true) :
    (snapshotReposRun true false existingRepoNames rawSnapPrefixArg
        restOfRun).raised = true ∧
    (snapshotReposRun true false existingRepoNames rawSnapPrefixArg
        restOfRun).trace =
      reconcileBackendCalls ++
        [.failRun ("snapshots with prefix " ++
          normalizeSnapPrefixDash rawSnapPrefixArg ++ " already exist")] ∧
    (snapshotReposRun true false existingRepoNames rawSnapPrefixArg
        restOfRun).task =
      ⟨.failed, true, some "failed to snapshot repos",
        some ("snapshots with prefix " ++
          normalizeSnapPrefixDash rawSnapPrefixArg ++ " already exist")⟩ := by
  simp [snapshotReposRun, snapshotAllowedError, hmatch]

/-- C6 witness: the concrete guarded run of the counterexample scenario,
evaluated through the amended theorem. -/
theorem snapshotRepos_prefix_guard_witness :
    (snapshotReposRun true false ["snap1-foo"] "snap1" []).task =
      ⟨.failed, true, some "failed to snapshot repos",
        some "snapshots with prefix snap1- already exist"⟩ :=
  (snapshotRepos_prefix_guard_fails_after_reconcile
    ["snap1-foo"] "snap1" [] (by decide)).2.2

/-- C7 counterexample: `snapshot_repos` on a backend with
`snapshot_supported=false` — the parent task row exists (committed running)
and the `PulpManagerValueError` escapes, but the guard raises before the
`try`/`except` that records failures, so the committed task stays running
with no `date_finished`. -/
theorem snapshotRepos_unsupported_escapes_running :
    (snapshotReposRun false false [] "snap1" []).raised = true ∧
    (snapshotReposRun false false [] "snap1" []).task.state = .running ∧
    (snapshotReposRun false false [] "snap1" []).task.dateFinished = false ∧
    ¬ claimC7Holds := by
  refine ⟨by decide, by decide, by decide, ?_⟩
  intro h
  have hsnap := h.2.2 false false [] "snap1" [] (by decide)
  exact absurd hsnap.1 (by decide)

/-- C7 amended: `sync_repos` commits the parent task failed with
`date_finished` before re-raising; `snapshot_repos` does so only for
exceptions raised inside its guarded section (such as the snapshot-prefix
check) — when `snapshot_supported` is false the exception escapes with the
task still committed running and unfinished — and `remove_repos` updates the
session row to failed with `date_finished` but re-raises without a commit,
so its committed row still reads running. -/
theorem controller_failure_persistence :
    (∀ b, (syncReposOutcome b).raised = true →
      (syncReposOutcome b).committed = ⟨.failed, true⟩) ∧
    (∀ reuse existing pfxArg rest,
      (snapshotReposRun true reuse existing pfxArg rest).raised = true →
      (snapshotReposRun true reuse existing pfxArg rest).task.state = .failed ∧
      (snapshotReposRun true reuse existing pfxArg rest).task.dateFinished = true) ∧
    (∀ reuse existing pfxArg rest,
      (snapshotReposRun false reuse existing pfxArg rest).raised = true ∧
      (snapshotReposRun false reuse existing pfxArg rest).task =
        ⟨.running, false, none, none⟩) ∧
    (∀ b, (removeReposOutcome b).raised = true →
      (removeReposOutcome b).session = ⟨.failed, true⟩ ∧
      (removeReposOutcome b).committed = ⟨.running, false⟩) := by
  refine ⟨?_, ?_, ?_, ?_⟩
  · intro b hb
    cases b with
    | true => rfl
    | false => exact absurd hb (by decide)
  · intro reuse existing pfxArg rest hb
    cases reuse with
    | true =>
      simp [snapshotReposRun] at hb
    | false =>
      by_cases hc : (existing.any (fun n =>
          strStartsWith n (normalizeSnapPrefixDash pfxArg))) = true
      · simp [snapshotReposRun, snapshotAllowedError, hc]
      · simp [snapshotReposRun, snapshotAllowedError, hc] at hb
  · intro reuse existing pfxArg rest
    exact ⟨rfl, rfl⟩
  · intro b hb
    cases b with
    | true => exact ⟨rfl, rfl⟩
    | false => exact absurd hb (by decide)

/-- C7 witness: a `sync_repos` body failure leaves the parent task committed
failed with `date_finished`. -/
theorem controller_failure_persistence_witness :
    (syncReposOutcome true).committed = ⟨.failed, true⟩ :=
  controller_failure_persistence.1 true (by decide)

end PulpManager
